import Mathlib

/-!
Formal model of the message layer (src/message/message.py), the asynchronous
completion runner (src/model/openai.py) and the batch driver (src/run.py),
with theorems settling the specification claims about them.
-/

namespace Spec2Proof

/-- Python-level exceptions that the modelled code can raise or swallow. -/
inductive PyError
  | apiError
  | indexError
  | typeError
  | valueError
  deriving DecidableEq, Repr

/-- An entry of the images list of a user message: either a filesystem path or a
raw string, which the constructor expects to be the literal image placeholder. -/
inductive ImageRef
  | path (p : String)
  | str (s : String)
  deriving DecidableEq, Repr

/-- The reserved placeholder literal accepted in the images list. -/
def imagePlaceholder : String := "\x7b\x7bimage\x7d\x7d"

/-- Python truthiness of an optional string: None and the empty string are falsy. -/
def pyTruthyStr : Option String → Bool
  | none => false
  | some s => !(s == "")

/-- Python truthiness of an optional list: None and the empty list are falsy. -/
def pyTruthyImages : Option (List ImageRef) → Bool
  | none => false
  | some l => !l.isEmpty

/-- UserMessage with the fields set by message.py lines 44-46. -/
structure UserMessage where
  turn : Nat
  content : Option String
  images : Option (List ImageRef)
  deriving DecidableEq, Repr

/-- Construction-time advisory validation events, message.py lines 48-51. -/
inductive InitLog
  | invalidImageEntry
  deriving DecidableEq, Repr

/-- UserMessage init, message.py lines 33-51: stores the fields and logs an
advisory error for every plain-string image entry different from the
placeholder; it never raises, so it is modelled as a total function. -/
def UserMessage.init (content : Option String) (images : Option (List ImageRef))
    (turn : Nat) : UserMessage × List InitLog :=
  let m : UserMessage := ⟨turn, content, images⟩
  let log :=
    if pyTruthyImages images then
      (images.getD []).filterMap fun im =>
        match im with
        | ImageRef.path _ => none
        | ImageRef.str s =>
            if s == imagePlaceholder then none else some InitLog.invalidImageEntry
    else []
  (m, log)

/-- One OpenAI content block of a user message. -/
inductive OABlock
  | text (text : String)
  | imageUrl (url : String)
  deriving DecidableEq, Repr

/-- The content field of an OpenAI chat message: a block list for user messages,
a plain string for model and system messages. -/
inductive OAContent
  | blocks (blocks : List OABlock)
  | str (s : String)
  deriving DecidableEq, Repr

/-- One message of the OpenAI request payload. -/
structure OAMessage where
  role : String
  content : OAContent
  deriving DecidableEq, Repr

/-- UserMessage.to_openai, message.py lines 53-71. The parameter `enc` stands for
util.image.encode_image, an external pure base64 encoder over image references.
The text block, when present, precedes the image blocks. -/
def UserMessage.to_openai (enc : ImageRef → String) (m : UserMessage) : OAMessage :=
  let contentList :=
    if pyTruthyStr m.content then [OABlock.text (m.content.getD "")] else []
  let imagesList :=
    if pyTruthyImages m.images then
      (m.images.getD []).map fun i =>
        OABlock.imageUrl ("data:image/png;base64," ++ enc i)
    else []
  ⟨"user", OAContent.blocks (contentList ++ imagesList)⟩

/-- One part of a DeepMind request payload. -/
inductive DMPart
  | text (text : String)
  | inlineData (mimeType : String) (data : String)
  deriving DecidableEq, Repr

/-- A DeepMind message payload. -/
structure DMPayload where
  parts : List DMPart
  role : String
  deriving DecidableEq, Repr

/-- UserMessage.to_deepmind, message.py lines 73-88: the image parts precede the
text part. -/
def UserMessage.to_deepmind (enc : ImageRef → String) (m : UserMessage) : DMPayload :=
  let contentList :=
    if pyTruthyStr m.content then [DMPart.text (m.content.getD "")] else []
  let imagesList :=
    if pyTruthyImages m.images then
      (m.images.getD []).map fun i => DMPart.inlineData "image/png" (enc i)
    else []
  ⟨imagesList ++ contentList, "user"⟩

/-- One Anthropic content block. -/
inductive AnthBlock
  | text (text : String)
  | image (sourceType : String) (mediaType : String) (data : String)
  deriving DecidableEq, Repr

/-- The content field of an Anthropic message. -/
inductive AnthContent
  | blocks (blocks : List AnthBlock)
  | str (s : String)
  deriving DecidableEq, Repr

/-- One Anthropic message payload. -/
structure AnthMessage where
  role : String
  content : AnthContent
  deriving DecidableEq, Repr

/-- UserMessage.to_anthropic, message.py lines 90-108: the image blocks precede
the text block. -/
def UserMessage.to_anthropic (enc : ImageRef → String) (m : UserMessage) : AnthMessage :=
  let contentList :=
    if pyTruthyStr m.content then [AnthBlock.text (m.content.getD "")] else []
  let imagesList :=
    if pyTruthyImages m.images then
      (m.images.getD []).map fun i => AnthBlock.image "base64" "image/png" (enc i)
    else []
  ⟨"user", AnthContent.blocks (imagesList ++ contentList)⟩

/-- ModelMessage, message.py lines 110-135. -/
structure ModelMessage where
  turn : Nat
  content : String
  deriving DecidableEq, Repr

/-- ModelMessage.to_openai, message.py lines 137-149. -/
def ModelMessage.to_openai (m : ModelMessage) : OAMessage :=
  ⟨"assistant", OAContent.str m.content⟩

/-- ModelMessage.to_deepmind, message.py lines 151-162. -/
def ModelMessage.to_deepmind (m : ModelMessage) : DMPayload :=
  ⟨if m.content == "" then [] else [DMPart.text m.content], "model"⟩

/-- ModelMessage.to_anthropic, message.py lines 164-176. -/
def ModelMessage.to_anthropic (m : ModelMessage) : AnthMessage :=
  ⟨"assistant", AnthContent.str m.content⟩

/-- SystemMessage, message.py lines 178-204. It only has an OpenAI renderer. -/
structure SystemMessage where
  turn : Nat
  content : String
  deriving DecidableEq, Repr

/-- SystemMessage.to_openai, message.py lines 206-218. -/
def SystemMessage.to_openai (m : SystemMessage) : OAMessage :=
  ⟨"system", OAContent.str m.content⟩

/-- A message of any of the three classes, as accepted by the runner. -/
inductive Message
  | user (m : UserMessage)
  | model (m : ModelMessage)
  | system (m : SystemMessage)
  deriving DecidableEq, Repr

/-- Dispatch of message.to_openai over the three classes. -/
def Message.to_openai (enc : ImageRef → String) : Message → OAMessage
  | Message.user m => UserMessage.to_openai enc m
  | Message.model m => ModelMessage.to_openai m
  | Message.system m => SystemMessage.to_openai m

/-- The internal roles of the core. -/
inductive Role
  | user
  | model
  | system
  deriving DecidableEq, Repr

/-- The supported providers. -/
inductive Provider
  | openai
  | deepmind
  | anthropic
  deriving DecidableEq, Repr

/-- Which role has a render method per provider in message.py: every class has
to_openai; SystemMessage has neither to_deepmind nor to_anthropic. -/
def supports : Provider → Role → Bool
  | Provider.openai, _ => true
  | Provider.deepmind, Role.user => true
  | Provider.deepmind, Role.model => true
  | Provider.deepmind, Role.system => false
  | Provider.anthropic, Role.user => true
  | Provider.anthropic, Role.model => true
  | Provider.anthropic, Role.system => false

/-- The role token each message class emits for each provider, read off the role
field of the render methods; none where the class has no render method for that
provider. -/
def roleToken : Provider → Role → Option String
  | Provider.openai, Role.user =>
      some (UserMessage.to_openai (fun _ => "") ⟨0, none, none⟩).role
  | Provider.openai, Role.model => some (ModelMessage.to_openai ⟨0, ""⟩).role
  | Provider.openai, Role.system => some (SystemMessage.to_openai ⟨0, ""⟩).role
  | Provider.deepmind, Role.user =>
      some (UserMessage.to_deepmind (fun _ => "") ⟨0, none, none⟩).role
  | Provider.deepmind, Role.model => some (ModelMessage.to_deepmind ⟨0, ""⟩).role
  | Provider.deepmind, Role.system => none
  | Provider.anthropic, Role.user =>
      some (UserMessage.to_anthropic (fun _ => "") ⟨0, none, none⟩).role
  | Provider.anthropic, Role.model => some (ModelMessage.to_anthropic ⟨0, ""⟩).role
  | Provider.anthropic, Role.system => none

/-- Whether an OpenAI content value contains a text block. -/
def hasTextBlock : OAContent → Bool
  | OAContent.blocks bs =>
      bs.any fun b => match b with | OABlock.text _ => true | OABlock.imageUrl _ => false
  | OAContent.str _ => true

/-- A fixed encoder used in concrete witnesses. -/
def encW : ImageRef → String := fun _ => "IMGDATA"

/-- C6: for every provider the role mapping is defined exactly on the supported
roles, injective there (a bijection onto its image), and a role the provider
does not support is never emitted; for OpenAI the user, model and system classes
emit the tokens user, assistant and system, the provider token assistant
standing for the core role model. -/
theorem claim_C6_role_mapping :
    (∀ p r, (roleToken p r).isSome = supports p r)
    ∧ (∀ p r r2, supports p r = true → supports p r2 = true →
        roleToken p r = roleToken p r2 → r = r2)
    ∧ roleToken Provider.openai Role.user = some "user"
    ∧ roleToken Provider.openai Role.model = some "assistant"
    ∧ roleToken Provider.openai Role.system = some "system"
    ∧ (∀ enc m, (UserMessage.to_openai enc m).role = "user")
    ∧ (∀ m, (ModelMessage.to_openai m).role = "assistant")
    ∧ (∀ m, (SystemMessage.to_openai m).role = "system") := by
  refine ⟨?_, ?_, rfl, rfl, rfl, fun _ _ => rfl, fun _ => rfl, fun _ => rfl⟩
  · intro p r
    cases p <;> cases r <;> rfl
  · intro p r r2 h1 h2 h3
    revert h1 h2 h3
    cases p <;> cases r <;> cases r2 <;> decide

/-- Witness for C6: the injectivity part applied to the OpenAI user role. -/
theorem claim_C6_witness : Role.user = Role.user :=
  claim_C6_role_mapping.2.1 Provider.openai Role.user Role.user rfl rfl rfl

/-- C7: rendering a user message holding nonempty text and at least one image
puts the text block before the image blocks for OpenAI, and the image blocks
before the text block for DeepMind and Anthropic. -/
theorem claim_C7_block_order (enc : ImageRef → String) (m : UserMessage)
    (s : String) (l : List ImageRef)
    (hc : m.content = some s) (hs : s ≠ "") (hi : m.images = some l) (hl : l ≠ []) :
    (UserMessage.to_openai enc m).content
      = OAContent.blocks
          (OABlock.text s ::
            l.map fun i => OABlock.imageUrl ("data:image/png;base64," ++ enc i))
    ∧ (UserMessage.to_deepmind enc m).parts
      = (l.map fun i => DMPart.inlineData "image/png" (enc i)) ++ [DMPart.text s]
    ∧ (UserMessage.to_anthropic enc m).content
      = AnthContent.blocks
          ((l.map fun i => AnthBlock.image "base64" "image/png" (enc i))
            ++ [AnthBlock.text s]) := by
  obtain ⟨t, c, im⟩ := m
  simp only at hc hi
  subst hc; subst hi
  have hle : l.isEmpty = false := by
    cases l with
    | nil => exact absurd rfl hl
    | cons a as => rfl
  have hse : (s == "") = false := by
    simp [hs]
  refine ⟨?_, ?_, ?_⟩ <;>
    simp [UserMessage.to_openai, UserMessage.to_deepmind, UserMessage.to_anthropic,
      pyTruthyStr, pyTruthyImages, hse, hle]

/-- Witness for C7 at a concrete message with text and one image. -/
theorem claim_C7_witness :
    (UserMessage.to_openai encW ⟨0, some "hi", some [ImageRef.path "a.png"]⟩).content
      = OAContent.blocks
          [OABlock.text "hi",
            OABlock.imageUrl ("data:image/png;base64," ++ encW (ImageRef.path "a.png"))]
    ∧ (UserMessage.to_deepmind encW ⟨0, some "hi", some [ImageRef.path "a.png"]⟩).parts
      = [DMPart.inlineData "image/png" (encW (ImageRef.path "a.png")), DMPart.text "hi"]
    ∧ (UserMessage.to_anthropic encW ⟨0, some "hi", some [ImageRef.path "a.png"]⟩).content
      = AnthContent.blocks
          [AnthBlock.image "base64" "image/png" (encW (ImageRef.path "a.png")),
            AnthBlock.text "hi"] := by
  have h := claim_C7_block_order encW ⟨0, some "hi", some [ImageRef.path "a.png"]⟩
    "hi" [ImageRef.path "a.png"] rfl (by decide) rfl (by decide)
  simpa using h

/-- C8: rendering is pure and deterministic: every render method of every
message class is a function of the content fields of the message and of the
image encoder alone (the turn field and no hidden state enter the payload), so
two calls on the same unmodified instance with the referenced image files
unchanged, hence the same encoder, yield identical payloads. -/
theorem claim_C8_render_pure (enc : ImageRef → String) :
    (∀ m1 m2 : UserMessage, m1.content = m2.content → m1.images = m2.images →
      UserMessage.to_openai enc m1 = UserMessage.to_openai enc m2
      ∧ UserMessage.to_deepmind enc m1 = UserMessage.to_deepmind enc m2
      ∧ UserMessage.to_anthropic enc m1 = UserMessage.to_anthropic enc m2)
    ∧ (∀ m1 m2 : ModelMessage, m1.content = m2.content →
      ModelMessage.to_openai m1 = ModelMessage.to_openai m2
      ∧ ModelMessage.to_deepmind m1 = ModelMessage.to_deepmind m2
      ∧ ModelMessage.to_anthropic m1 = ModelMessage.to_anthropic m2)
    ∧ (∀ m1 m2 : SystemMessage, m1.content = m2.content →
      SystemMessage.to_openai m1 = SystemMessage.to_openai m2) := by
  refine ⟨?_, ?_, ?_⟩
  · rintro ⟨t1, c1, i1⟩ ⟨t2, c2, i2⟩ hc hi
    simp only at hc hi
    subst hc; subst hi
    exact ⟨rfl, rfl, rfl⟩
  · rintro ⟨t1, c1⟩ ⟨t2, c2⟩ hc
    simp only at hc
    subst hc
    exact ⟨rfl, rfl, rfl⟩
  · rintro ⟨t1, c1⟩ ⟨t2, c2⟩ hc
    simp only at hc
    subst hc
    rfl

/-- Witness for C8: two user message instances differing only in turn render the
same OpenAI payload. -/
theorem claim_C8_witness :
    UserMessage.to_openai encW ⟨0, some "x", none⟩
      = UserMessage.to_openai encW ⟨1, some "x", none⟩ :=
  ((claim_C8_render_pure encW).1 ⟨0, some "x", none⟩ ⟨1, some "x", none⟩ rfl rfl).1

/-- C10: constructing a user message with no content and no images succeeds and
logs no validation error, its OpenAI rendering is role user with an empty
content-block list, and in general the OpenAI rendering contains a text block
exactly when the content is a nonempty string, so empty content yields no text
block. -/
theorem claim_C10_empty_user_message :
    UserMessage.init none none 0 = (⟨0, none, none⟩, [])
    ∧ (∀ enc, UserMessage.to_openai enc ⟨0, none, none⟩ = ⟨"user", OAContent.blocks []⟩)
    ∧ (∀ enc m, hasTextBlock (UserMessage.to_openai enc m).content = pyTruthyStr m.content) := by
  refine ⟨rfl, fun enc => rfl, fun enc m => ?_⟩
  obtain ⟨t, c, im⟩ := m
  by_cases hc : pyTruthyStr c = true
  · simp [UserMessage.to_openai, hasTextBlock, hc]
  · have hc2 : pyTruthyStr c = false := by
      cases h : pyTruthyStr c
      · rfl
      · exact absurd h hc
    simp only [UserMessage.to_openai, hasTextBlock, hc2, if_false]
    by_cases hi : pyTruthyImages im = true
    · simp only [hi, if_true]
      cases im with
      | none => simp [pyTruthyImages] at hi
      | some l =>
          simp [List.any_map, Function.comp]
    · have hi2 : pyTruthyImages im = false := by
        cases h : pyTruthyImages im
        · rfl
        · exact absurd h hi
      simp [hi2]

/-- Token usage metadata of a completion response. -/
structure Usage where
  promptTokens : Nat
  completionTokens : Nat
  totalTokens : Nat
  deriving DecidableEq, Repr

/-- The message part of one choice of a completion response; the content may be
absent. -/
structure ChoiceMessage where
  content : Option String
  deriving DecidableEq, Repr

/-- One choice of a completion response. -/
structure Choice where
  message : ChoiceMessage
  logprobs : Option String
  finishReason : String
  deriving DecidableEq, Repr

/-- A completion response object with the fields read by openai.py. -/
structure Completion where
  id : String
  created : Nat
  systemFingerprint : Option String
  choices : List Choice
  usage : Usage
  deriving DecidableEq, Repr

/-- The configuration stored by the OpenAI class, openai.py lines 60-74. -/
structure OpenAIConfig where
  apiKey : String
  model : String
  frequencyPenalty : Float
  presencePenalty : Float
  logitBias : Option (List (String × Int))
  logprobs : Bool
  topLogprobs : Option Nat
  maxTokens : Nat
  n : Option Nat
  seed : Option Int
  stop : Option (List String)
  temperature : Float
  topP : Float
  callsPerSecond : Float

/-- The OpenAI constructor, openai.py lines 76-120: it stores every tunable; the
model field keeps the class default gpt-4-turbo because the constructor has no
model parameter. -/
def OpenAI.init (apiKey : String) (frequencyPenalty presencePenalty : Float)
    (logitBias : Option (List (String × Int))) (logprobs : Bool)
    (topLogprobs : Option Nat) (maxTokens : Nat) (n : Option Nat)
    (seed : Option Int) (stop : Option (List String))
    (temperature topP callsPerSecond : Float) : OpenAIConfig :=
  ⟨apiKey, "gpt-4-turbo", frequencyPenalty, presencePenalty, logitBias, logprobs,
    topLogprobs, maxTokens, n, seed, stop, temperature, topP, callsPerSecond⟩

/-- The arguments arun passes to chat.completions.create, openai.py lines
218-227. Note that callsPerSecond is not among them, and no other code reads
it. -/
structure CreateRequest where
  messages : List OAMessage
  model : String
  frequencyPenalty : Float
  presencePenalty : Float
  maxTokens : Nat
  seed : Option Int
  temperature : Float
  topP : Float

/-- Builds the create request exactly from the fields named in the call at
openai.py lines 218-227. -/
def mkCreateRequest (cfg : OpenAIConfig) (ms : List OAMessage) : CreateRequest :=
  ⟨ms, cfg.model, cfg.frequencyPenalty, cfg.presencePenalty, cfg.maxTokens,
    cfg.seed, cfg.temperature, cfg.topP⟩

/-- The hardcoded retry bound of arun, openai.py line 206. -/
def arunMaxRetries : Nat := 1000

/-- The retry loop of arun, openai.py lines 210-254, over a transport oracle
giving the outcome of the create call at each attempt index. The first result
component is the list of logged attempt indices (the A-prefixed counter of line
214). Outcomes: a raised transport failure is caught, logged and followed by
the next attempt (lines 231-235); a response with a first choice returns its
content (lines 241-254); a response with an empty choices list hits the
subscript of line 242 outside the try block, so the IndexError propagates;
when the loop range is exhausted the function falls off the end, which in
Python returns None (modelled as Except.ok none). -/
def arunGo (call : Nat → Except PyError Completion) :
    Nat → Nat → List Nat → List Nat × Except PyError (Option String)
  | 0, _, log => (log, Except.ok none)
  | fuel + 1, attempt, log =>
    let log2 := log ++ [attempt + 1]
    match call attempt with
    | Except.error _ => arunGo call fuel (attempt + 1) log2
    | Except.ok completion =>
      match completion.choices with
      | [] => (log2, Except.error PyError.indexError)
      | c :: _ => (log2, Except.ok c.message.content)

/-- OpenAI.arun, openai.py lines 203-254: renders the messages, then runs the
retry loop with the hardcoded bound against the transport oracle, which
receives the create request built from the stored configuration. -/
def OpenAI.arun (cfg : OpenAIConfig) (enc : ImageRef → String)
    (messages : List Message)
    (call : CreateRequest → Nat → Except PyError Completion) :
    List Nat × Except PyError (Option String) :=
  let rendered := messages.map (Message.to_openai enc)
  arunGo (call (mkCreateRequest cfg rendered)) arunMaxRetries 0 []

/-- The attempt indices logged from attempt a for k further attempts. -/
def idxFrom (a : Nat) : Nat → List Nat
  | 0 => []
  | k + 1 => (a + 1) :: idxFrom (a + 1) k

lemma idxFrom_eq_map (k : Nat) :
    ∀ a : Nat, idxFrom a k = (List.range k).map fun i => a + i + 1 := by
  induction k with
  | zero => intro a; rfl
  | succ n ih =>
      intro a
      rw [List.range_succ_eq_map]
      simp only [List.map_cons, List.map_map, idxFrom]
      refine congrArg₂ List.cons (by simp) ?_
      rw [ih (a + 1)]
      refine List.map_congr_left ?_
      intro i _
      simp only [Function.comp]
      omega

lemma arunGo_zero (call : Nat → Except PyError Completion) (a : Nat) (log : List Nat) :
    arunGo call 0 a log = (log, Except.ok none) := rfl

lemma arunGo_fail (call : Nat → Except PyError Completion) (fuel a : Nat)
    (log : List Nat) (e : PyError) (hc : call a = Except.error e) :
    arunGo call (fuel + 1) a log = arunGo call fuel (a + 1) (log ++ [a + 1]) := by
  simp [arunGo, hc]

lemma arunGo_ok_cons (call : Nat → Except PyError Completion) (fuel a : Nat)
    (log : List Nat) (comp : Completion) (c : Choice) (cs : List Choice)
    (hc : call a = Except.ok comp) (hch : comp.choices = c :: cs) :
    arunGo call (fuel + 1) a log = (log ++ [a + 1], Except.ok c.message.content) := by
  simp [arunGo, hc, hch]

lemma arunGo_ok_nil (call : Nat → Except PyError Completion) (fuel a : Nat)
    (log : List Nat) (comp : Completion)
    (hc : call a = Except.ok comp) (hch : comp.choices = []) :
    arunGo call (fuel + 1) a log = (log ++ [a + 1], Except.error PyError.indexError) := by
  simp [arunGo, hc, hch]

lemma arunGo_skip (call : Nat → Except PyError Completion) :
    ∀ (k fuel a : Nat) (log : List Nat),
      (∀ i, i < k → ∃ e, call (a + i) = Except.error e) →
      arunGo call (fuel + k) a log = arunGo call fuel (a + k) (log ++ idxFrom a k) := by
  intro k
  induction k with
  | zero => intro fuel a log h; simp [idxFrom]
  | succ n ih =>
      intro fuel a log h
      obtain ⟨e, he⟩ := h 0 (Nat.succ_pos n)
      have he2 : call a = Except.error e := by simpa using he
      have hstep : arunGo call (fuel + (n + 1)) a log
          = arunGo call (fuel + n) (a + 1) (log ++ [a + 1]) := by
        have hfa : fuel + (n + 1) = (fuel + n) + 1 := by omega
        rw [hfa]
        exact arunGo_fail call (fuel + n) a log e he2
      rw [hstep]
      have h2 : ∀ i, i < n → ∃ e2, call ((a + 1) + i) = Except.error e2 := by
        intro i hi
        have h3 := h (i + 1) (by omega)
        have hidx : a + (i + 1) = (a + 1) + i := by omega
        rw [hidx] at h3
        exact h3
      rw [ih fuel (a + 1) (log ++ [a + 1]) h2]
      have e1 : (a + 1) + n = a + (n + 1) := by omega
      have e2 : (log ++ [a + 1]) ++ idxFrom (a + 1) n = log ++ idxFrom a (n + 1) := by
        rw [List.append_assoc]
        rfl
      rw [e1, e2]

/-- After k raised failures the loop stands at attempt k with the indices
1..k logged. -/
lemma arun_reaches (cfg : OpenAIConfig) (enc : ImageRef → String)
    (messages : List Message) (oracle : Nat → Except PyError Completion)
    (k : Nat) (hk : k ≤ arunMaxRetries)
    (hfail : ∀ i, i < k → ∃ e, oracle i = Except.error e) :
    OpenAI.arun cfg enc messages (fun _ => oracle)
      = arunGo oracle (arunMaxRetries - k) k (idxFrom 0 k) := by
  have h0 : ∀ i, i < k → ∃ e, oracle (0 + i) = Except.error e := by
    intro i hi
    simpa using hfail i hi
  have hskip := arunGo_skip oracle k (arunMaxRetries - k) 0 [] h0
  have hsplit : (arunMaxRetries - k) + k = arunMaxRetries := Nat.sub_add_cancel hk
  rw [hsplit] at hskip
  simp only [Nat.zero_add, List.nil_append] at hskip
  show arunGo oracle arunMaxRetries 0 [] = _
  exact hskip

lemma idxFrom_zero_snoc (k : Nat) :
    idxFrom 0 k ++ [k + 1] = (List.range (k + 1)).map fun i => i + 1 := by
  rw [idxFrom_eq_map, List.range_succ, List.map_append]
  simp

/-- C1 (code observation): when every attempt raises, arun performs exactly 1000
attempts — the hardcoded max_retries of openai.py line 206, not a configurable
parameter — logging the indices 1..1000, and then falls off the loop, which in
Python returns the implicit None (modelled Except.ok none): a bare None, not an
explicit failure signal distinguishable from a success whose content is None. -/
theorem claim_C1_exhaustion_returns_bare_none
    (cfg : OpenAIConfig) (enc : ImageRef → String) (messages : List Message)
    (oracle : Nat → Except PyError Completion)
    (h : ∀ i, ∃ e, oracle i = Except.error e) :
    OpenAI.arun cfg enc messages (fun _ => oracle)
      = ((List.range arunMaxRetries).map (fun i => i + 1), Except.ok none) := by
  rw [arun_reaches cfg enc messages oracle arunMaxRetries (le_refl _)
    (fun i _ => h i)]
  rw [Nat.sub_self, arunGo_zero, idxFrom_eq_map]
  simp

/-- An always-failing transport oracle. -/
def failOracle : Nat → Except PyError Completion := fun _ => Except.error PyError.apiError

/-- A concrete configuration built by the constructor with its Python default
argument values. -/
def cfgTest : OpenAIConfig :=
  OpenAI.init "key" 0.0 0.0 none false none 1000 none none none 1.0 1.0 5.0

/-- Witness for C1 at a concrete always-failing transport. -/
theorem claim_C1_witness :
    OpenAI.arun cfgTest encW [] (fun _ => failOracle)
      = ((List.range arunMaxRetries).map (fun i => i + 1), Except.ok none) :=
  claim_C1_exhaustion_returns_bare_none cfgTest encW [] failOracle
    (fun _ => ⟨PyError.apiError, rfl⟩)

/-- A transport oracle that returns an empty-choices response at once. -/
def emptyChoicesOracle : Nat → Except PyError Completion :=
  fun _ => Except.ok ⟨"id", 0, none, [], ⟨0, 0, 0⟩⟩

/-- C2 counterexample: on the first attempt the provider call returns, without
raising, a response whose choices list is empty; although 999 attempts remain,
arun does not retry and no recovery happens: the subscript choices[0] of
openai.py line 242 sits outside the try block, so the IndexError propagates
past the retry controller to the caller. -/
theorem claim_C2_counterexample :
    OpenAI.arun cfgTest encW [] (fun _ => emptyChoicesOracle)
      = ([1], Except.error PyError.indexError) := by
  rw [arun_reaches cfgTest encW [] emptyChoicesOracle 0 (by norm_num [arunMaxRetries])
    (fun i hi => absurd hi (Nat.not_lt_zero i))]
  rw [show arunMaxRetries - 0 = 999 + 1 from rfl]
  rw [arunGo_ok_nil emptyChoicesOracle 999 0 (idxFrom 0 0) ⟨"id", 0, none, [], ⟨0, 0, 0⟩⟩ rfl rfl]
  rfl

/-- C2 (amended): a failure raised by the provider call during an attempt is
recovered locally while attempts remain — it is caught, logged and followed by
a new attempt — but any response that returns without raising ends the retry
loop regardless of its choices: with at least one choice arun returns the first
choice content, while with an empty choices list the IndexError raised by the
choices[0] subscript propagates to the caller even though attempts remain. -/
theorem claim_C2_amended
    (cfg : OpenAIConfig) (enc : ImageRef → String) (messages : List Message)
    (oracle : Nat → Except PyError Completion) (k : Nat)
    (hk : k < arunMaxRetries)
    (hfail : ∀ i, i < k → ∃ e, oracle i = Except.error e)
    (comp : Completion) (hok : oracle k = Except.ok comp) :
    (comp.choices = [] →
      OpenAI.arun cfg enc messages (fun _ => oracle)
        = ((List.range (k + 1)).map (fun i => i + 1), Except.error PyError.indexError))
    ∧ (∀ c cs, comp.choices = c :: cs →
      OpenAI.arun cfg enc messages (fun _ => oracle)
        = ((List.range (k + 1)).map (fun i => i + 1), Except.ok c.message.content)) := by
  have hreach := arun_reaches cfg enc messages oracle k (le_of_lt hk) hfail
  obtain ⟨m, hm⟩ : ∃ m, arunMaxRetries - k = m + 1 := ⟨arunMaxRetries - k - 1, by omega⟩
  constructor
  · intro hch
    rw [hreach, hm, arunGo_ok_nil oracle m k (idxFrom 0 k) comp hok hch,
      idxFrom_zero_snoc]
  · intro c cs hch
    rw [hreach, hm, arunGo_ok_cons oracle m k (idxFrom 0 k) comp c cs hok hch,
      idxFrom_zero_snoc]

/-- A transport oracle that raises once, then returns an empty-choices
response. -/
def flakyEmptyOracle : Nat → Except PyError Completion :=
  fun i => if i = 0 then Except.error PyError.apiError else Except.ok ⟨"id", 0, none, [], ⟨0, 0, 0⟩⟩

/-- Witness for C2: one raised failure is retried, then the empty-choices
response on attempt 2 makes the error propagate. -/
theorem claim_C2_witness :
    OpenAI.arun cfgTest encW [] (fun _ => flakyEmptyOracle)
      = ([1, 2], Except.error PyError.indexError) := by
  have h := (claim_C2_amended cfgTest encW [] flakyEmptyOracle 1
    (by norm_num [arunMaxRetries])
    (fun i hi => by
      have hi0 : i = 0 := by omega
      subst hi0
      exact ⟨PyError.apiError, rfl⟩)
    ⟨"id", 0, none, [], ⟨0, 0, 0⟩⟩ rfl).1 rfl
  simpa using h

/-- C5: if the transport raises on exactly the first k attempts, with k below
the retry bound, and the call at attempt k+1 returns a response with at least
one choice, arun returns the content of that first choice and the log holds
exactly the k+1 attempt indices 1..k+1. -/
theorem claim_C5_k_failures_then_success
    (cfg : OpenAIConfig) (enc : ImageRef → String) (messages : List Message)
    (oracle : Nat → Except PyError Completion) (k : Nat)
    (hk : k < arunMaxRetries)
    (hfail : ∀ i, i < k → ∃ e, oracle i = Except.error e)
    (comp : Completion) (c : Choice) (cs : List Choice)
    (hok : oracle k = Except.ok comp) (hch : comp.choices = c :: cs) :
    OpenAI.arun cfg enc messages (fun _ => oracle)
      = ((List.range (k + 1)).map (fun i => i + 1), Except.ok c.message.content) := by
  have hreach := arun_reaches cfg enc messages oracle k (le_of_lt hk) hfail
  obtain ⟨m, hm⟩ : ∃ m, arunMaxRetries - k = m + 1 := ⟨arunMaxRetries - k - 1, by omega⟩
  rw [hreach, hm, arunGo_ok_cons oracle m k (idxFrom 0 k) comp c cs hok hch,
    idxFrom_zero_snoc]

/-- A well-formed completion with one choice whose content is Hello!. -/
def okComp : Completion :=
  ⟨"id", 1, some "fp", [⟨⟨some "Hello!"⟩, none, "stop"⟩], ⟨1, 1, 2⟩⟩

/-- A transport oracle that raises on the first two attempts, then succeeds. -/
def flakyOracle : Nat → Except PyError Completion :=
  fun i => if i < 2 then Except.error PyError.apiError else Except.ok okComp

/-- Witness for C5 with k = 2: three attempts logged, success returned. -/
theorem claim_C5_witness :
    OpenAI.arun cfgTest encW [] (fun _ => flakyOracle)
      = ([1, 2, 3], Except.ok (some "Hello!")) := by
  have h := claim_C5_k_failures_then_success cfgTest encW [] flakyOracle 2
    (by norm_num [arunMaxRetries])
    (fun i hi => ⟨PyError.apiError, by simp [flakyOracle, hi]⟩)
    okComp ⟨⟨some "Hello!"⟩, none, "stop"⟩ []
    (by simp [flakyOracle]) rfl
  simpa using h

/-- Subscript access of a Python list; out of range raises IndexError. -/
def pyGet {α : Type} (l : List α) (i : Nat) : Except PyError α :=
  match l[i]? with
  | some v => Except.ok v
  | none => Except.error PyError.indexError

/-- Python tuple unpacking of a value into two targets, run.py line 64: arun
returns a single optional string, so unpacking iterates it — None is not
iterable (TypeError), and a string unpacks into two targets only when it has
exactly two characters (ValueError otherwise), each target receiving one
character. -/
def unpack2 : Option String → Except PyError (String × String)
  | none => Except.error PyError.typeError
  | some s =>
    match s.data with
    | [a, b] => Except.ok (String.mk [a], String.mk [b])
    | _ => Except.error PyError.valueError

/-- The code-fence extraction of run.py lines 66-69: the python fence marker is
replaced by the plain marker and the piece at index 1 of the split is taken; a
response without any fence splits into a single piece, so the subscript
raises. -/
def extractCode (response : String) : Except PyError String :=
  pyGet ((response.replace "```python" "```").splitOn "```") 1

/-- One trial of one row, run.py lines 60-84: build the single user message, run
the async completion, unpack the single returned value into a response and a
completion object, post-process the response, and assemble the output row in
source order. -/
def runTrial (cfg : OpenAIConfig) (enc : ImageRef → String)
    (oracle : Nat → Except PyError Completion)
    (row : List String) (prompt : String) (trial : Nat) :
    Except PyError (List String) := do
  let messages := [Message.user (UserMessage.init (some prompt) none 0).1]
  let v ← (OpenAI.arun cfg enc messages (fun _ => oracle)).2
  let (response, completionVal) ← unpack2 v
  let response2 ← extractCode response
  let c1 ← pyGet row 1
  let c2 ← pyGet row 2
  let c4 ← pyGet row 4
  let c5 ← pyGet row 5
  let c6 ← pyGet row 6
  let c7 ← pyGet row 7
  let c8 ← pyGet row 8
  Except.ok [response2, c1, c2, prompt, c4, c5, c6, c7, c8, completionVal, toString trial]

/-- The trials loop of run.py line 58: trial ranges over 1..trials; the counter
n numbers successive arun invocations so the provider oracle can distinguish
them. -/
def runTrials (cfg : OpenAIConfig) (enc : ImageRef → String)
    (provider : Nat → Nat → Except PyError Completion)
    (row : List String) (prompt : String) :
    Nat → Nat → Nat → Except PyError (List (List String) × Nat)
  | n, _, 0 => Except.ok ([], n)
  | n, trial, remaining + 1 => do
    let newRow ← runTrial cfg enc (provider n) row prompt trial
    let (rest, n2) ← runTrials cfg enc provider row prompt (n + 1) (trial + 1) remaining
    Except.ok (newRow :: rest, n2)

/-- Whether the enumerate index exceeds the limit, run.py line 55. -/
def limitExceeded : Option Nat → Nat → Bool
  | none, _ => false
  | some l, i => decide (l < i)

/-- The row loop of run.py lines 54-84: rows after the header are enumerated
from 1, the loop breaks past the limit, and each row takes its prompt from
column 3 and runs the trials. -/
def rowsLoop (cfg : OpenAIConfig) (enc : ImageRef → String)
    (provider : Nat → Nat → Except PyError Completion) (trials : Nat) :
    List (List String) → Nat → Option Nat → Nat →
    Except PyError (List (List String) × Nat)
  | [], _, _, n => Except.ok ([], n)
  | row :: rest, i, limit, n =>
    if limitExceeded limit i then Except.ok ([], n)
    else do
      let prompt ← pyGet row 3
      let (rows1, n2) ← runTrials cfg enc provider row prompt n 1 trials
      let (rows2, n3) ← rowsLoop cfg enc provider trials rest (i + 1) limit n2
      Except.ok (rows1 ++ rows2, n3)

/-- The output header row, run.py lines 39-51. -/
def outputHeader : List String :=
  ["model_response", "class_id", "created", "prompt", "question_id", "stderr",
    "stdout", "user_email", "user_ip", "completion_object", "trial_id"]

/-- process_data, run.py lines 27-87, from the row loop on: the input table
(header first) is processed row by row and the produced rows are returned
after the output header, as written to the output file. Any exception raised
inside the loop aborts the whole batch before the write, so nothing is
produced. The client construction of lines 30-34 is represented by the given
configuration; the source there also passes a model keyword the constructor
does not accept. -/
def process_data (cfg : OpenAIConfig) (enc : ImageRef → String)
    (provider : Nat → Nat → Except PyError Completion)
    (data : List (List String)) (limit : Option Nat) (trials : Nat) :
    Except PyError (List (List String)) := do
  let (rows, _) ← rowsLoop cfg enc provider trials (data.drop 1) 1 limit 0
  Except.ok (outputHeader :: rows)

/-- A provider that returns the Hello! completion on the first attempt of every
call. -/
def helloProvider : Nat → Nat → Except PyError Completion := fun _ _ => Except.ok okComp

/-- A provider whose calls always raise. -/
def failProvider : Nat → Nat → Except PyError Completion :=
  fun _ _ => Except.error PyError.apiError

/-- The input header row of the scenario tables. -/
def inputHeaderRow : List String :=
  ["model_response", "class_id", "created", "prompt", "question_id", "stderr",
    "stdout", "user_email", "user_ip"]

/-- An input row whose prompt column holds Say hello. -/
def inputRow : List String :=
  ["", "c1", "2023", "Say hello", "q1", "err", "out", "a@example.com", "1.2.3.4"]

/-- A second input row. -/
def inputRow2 : List String :=
  ["", "c2", "2023", "Say bye", "q2", "err", "out", "b@example.com", "5.6.7.8"]

/-- The one-row input table of the C3 scenario. -/
def inputTable : List (List String) := [inputHeaderRow, inputRow]

/-- A two-row input table. -/
def inputTable2 : List (List String) := [inputHeaderRow, inputRow, inputRow2]

/-- C3 (code observation): with one input row whose prompt is Say hello, three
trials, and a provider returning Hello! on the first attempt of every call,
process_data does not produce three output rows: arun returns the single
string Hello!, the tuple unpacking of run.py line 64 raises ValueError (a
six-character string cannot unpack into two targets), and the batch aborts
with no output rows at all. -/
theorem claim_C3_hello_scenario_crashes :
    process_data cfgTest encW helloProvider inputTable (some 1) 3
      = Except.error PyError.valueError := rfl

lemma ok_bind {α β : Type} (a : α) (f : α → Except PyError β) :
    (Except.ok a : Except PyError α) >>= f = f a := rfl

lemma error_bind {α β : Type} (e : PyError) (f : α → Except PyError β) :
    (Except.error e : Except PyError α) >>= f = Except.error e := rfl

/-- A trial whose call exhausts every attempt ends in the TypeError raised by
unpacking the None that arun returns. -/
lemma runTrial_exhausted (cfg : OpenAIConfig) (enc : ImageRef → String)
    (oracle : Nat → Except PyError Completion)
    (row : List String) (prompt : String) (trial : Nat)
    (h : ∀ i, ∃ e, oracle i = Except.error e) :
    runTrial cfg enc oracle row prompt trial = Except.error PyError.typeError := by
  have harun :
      (OpenAI.arun cfg enc [Message.user (UserMessage.init (some prompt) none 0).1]
          (fun _ => oracle)).2 = Except.ok none := by
    rw [arun_reaches cfg enc _ oracle arunMaxRetries (le_refl _) (fun i _ => h i),
      Nat.sub_self, arunGo_zero]
  simp only [runTrial, harun, ok_bind]
  rfl

/-- If the first processed row's first trial exhausts its call, the whole batch
errors out with the TypeError of the unpacking, producing no output. -/
lemma process_data_first_row_aborts (cfg : OpenAIConfig) (enc : ImageRef → String)
    (provider : Nat → Nat → Except PyError Completion)
    (hdr row : List String) (rest : List (List String))
    (limit : Option Nat) (trials : Nat) (prompt : String)
    (hlim : limitExceeded limit 1 = false)
    (hprompt : pyGet row 3 = Except.ok prompt)
    (htr : 0 < trials)
    (hfail : ∀ i, ∃ e, provider 0 i = Except.error e) :
    process_data cfg enc provider (hdr :: row :: rest) limit trials
      = Except.error PyError.typeError := by
  obtain ⟨t, ht⟩ : ∃ t, trials = t + 1 := ⟨trials - 1, by omega⟩
  subst ht
  have hrt := runTrial_exhausted cfg enc (provider 0) row prompt 1 hfail
  simp [process_data, rowsLoop, runTrials, hlim, hprompt, ok_bind, hrt, error_bind]

/-- C4 counterexample: with two input rows and a provider whose calls always
raise, the first row's first trial exhausts all attempts, arun returns None,
and the unpacking at run.py line 64 raises TypeError: the batch aborts with no
output at all — no failure value is recorded for the row and the second row is
never processed. -/
theorem claim_C4_counterexample :
    process_data cfgTest encW failProvider inputTable2 none 3
      = Except.error PyError.typeError :=
  process_data_first_row_aborts cfgTest encW failProvider inputHeaderRow inputRow
    [inputRow2] none 3 "Say hello" rfl rfl (by norm_num)
    (fun _ => ⟨PyError.apiError, rfl⟩)

/-- C4 (amended): in batch mode an exhausted failure is not caught at the
per-row or per-trial boundary: whenever the first processed row's call
exhausts its attempts, the None returned by the controller makes the unpacking
at run.py line 64 raise TypeError, process_data returns that error, no
failure value is recorded in any output row, and the remaining rows and trials
are never processed. -/
theorem claim_C4_batch_aborts (cfg : OpenAIConfig) (enc : ImageRef → String)
    (provider : Nat → Nat → Except PyError Completion)
    (hdr row : List String) (rest : List (List String))
    (limit : Option Nat) (trials : Nat) (prompt : String)
    (hlim : limitExceeded limit 1 = false)
    (hprompt : pyGet row 3 = Except.ok prompt)
    (htr : 0 < trials)
    (hfail : ∀ i, ∃ e, provider 0 i = Except.error e) :
    process_data cfg enc provider (hdr :: row :: rest) limit trials
      = Except.error PyError.typeError :=
  process_data_first_row_aborts cfg enc provider hdr row rest limit trials prompt
    hlim hprompt htr hfail

/-- Witness for C4 at a concrete one-row batch with an always-failing
provider. -/
theorem claim_C4_witness :
    process_data cfgTest encW failProvider [inputHeaderRow, inputRow2] (some 5) 1
      = Except.error PyError.typeError :=
  claim_C4_batch_aborts cfgTest encW failProvider inputHeaderRow inputRow2 []
    (some 5) 1 "Say bye" rfl rfl (by norm_num)
    (fun _ => ⟨PyError.apiError, rfl⟩)

/-- The two scheduler-visible events of one arun call around the transport
await of openai.py line 218: the call starts awaiting the transport and the
await completes. The code takes no admission step before the await — it
acquires no semaphore, token bucket or lock, and the stored callsPerSecond
value is read nowhere in the repository — so a call's events carry no enabling
precondition. -/
inductive CallEv
  | beginAwait
  | endAwait
  deriving DecidableEq, Repr

/-- The per-call event sequence of one arun transport await. -/
def arunCallEvents : List CallEv := [CallEv.beginAwait, CallEv.endAwait]

/-- A cooperative interleaving of m concurrent arun calls: any event sequence
whose per-call projection is the arun event sequence. Because the code has no
admission gate, no further condition restricts which interleavings the
scheduler can realize. -/
def validSchedule (m : Nat) (s : List (Nat × CallEv)) : Bool :=
  ((List.range m).all fun i =>
      decide (((s.filter fun e => e.1 == i).map Prod.snd) = arunCallEvents))
    && s.all fun e => decide (e.1 < m)

/-- The number of calls awaiting the transport after a prefix of a schedule:
those that have begun their await and not yet completed it. -/
def awaitingAfter (m : Nat) (p : List (Nat × CallEv)) : Nat :=
  ((List.range m).filter fun i =>
      decide ((i, CallEv.beginAwait) ∈ p) && !decide ((i, CallEv.endAwait) ∈ p)).length

/-- The interleaving in which all six calls begin awaiting before any
completes. -/
def allBeginSchedule : List (Nat × CallEv) :=
  ((List.range 6).map fun i => (i, CallEv.beginAwait))
    ++ ((List.range 6).map fun i => (i, CallEv.endAwait))

/-- Replaces the callsPerSecond field of a configuration. -/
def setCallsPerSecond (cfg : OpenAIConfig) (x : Float) : OpenAIConfig :=
  ⟨cfg.apiKey, cfg.model, cfg.frequencyPenalty, cfg.presencePenalty, cfg.logitBias,
    cfg.logprobs, cfg.topLogprobs, cfg.maxTokens, cfg.n, cfg.seed, cfg.stop,
    cfg.temperature, cfg.topP, x⟩

/-- C9 (code observation): the configured callsPerSecond does not govern
admission. First, arun behaves identically for every stored callsPerSecond
value: the field enters no create request and is read by no code. Second, with
the default capacity 5 and six concurrent calls, the interleaving in which all
six calls begin awaiting the transport first is a valid schedule of the
gate-free arun event sequences, and after its first six events six calls are
simultaneously awaiting the transport — more than the configured capacity, and
no call ever suspends for admission. -/
theorem claim_C9_no_admission_control :
    (∀ (cfg : OpenAIConfig) (x : Float) (enc : ImageRef → String)
        (messages : List Message)
        (call : CreateRequest → Nat → Except PyError Completion),
      OpenAI.arun (setCallsPerSecond cfg x) enc messages call
        = OpenAI.arun cfg enc messages call)
    ∧ cfgTest.callsPerSecond = 5.0
    ∧ validSchedule 6 allBeginSchedule = true
    ∧ awaitingAfter 6 (allBeginSchedule.take 6) = 6 := by
  refine ⟨fun cfg x enc messages call => rfl, rfl, ?_, ?_⟩ <;> decide

end Spec2Proof
